import Mathlib

/-!
Verification of the iot-sensors-backend service: a shallow embedding of
`src/config.py` (configuration loading) and `src/app.py` (measurement
create/list endpoints), with theorems settling the specified properties.
-/

set_option maxHeartbeats 1000000

namespace IotBackend

/-! ## Timestamps

A `datetime` value is embedded as an abstract instant (e.g. microseconds on
some epoch scale) together with an optional time-zone offset in minutes.
`offset = none` models a naive Python `datetime`; `offset = some 0` models a
timezone-aware datetime in UTC (`datetime.now(UTC)` produces `some 0`).
-/

structure Datetime where
  time : Int
  offset : Option Int
deriving DecidableEq, Repr

/-- `datetime.now(UTC)` at abstract clock reading `clock`: tz-aware, UTC. -/
def datetime_now_utc (clock : Int) : Datetime :=
  { time := clock, offset := some 0 }

/-! ## Data model (`src/app.py`)

`Measurement` is the table model: `id` is `None` until the store assigns it
(autoincrement primary key); `ts` is a required datetime.  `value` is a
Python float, embedded as `Float`.
-/

structure Measurement where
  id : Option Nat
  device_id : String
  sensor : String
  value : Float
  ts : Datetime

/-- Input schema: only the client-settable fields (no `id`); `ts` optional. -/
structure MeasurementCreate where
  device_id : String
  sensor : String
  value : Float
  ts : Option Datetime

/-! The relational store, as visible to this service: a list of persisted
rows plus the autoincrement counter for the next primary key. -/

structure Store where
  rows : List Measurement
  nextId : Nat

/-- Store well-formedness: every persisted row has a store-assigned id,
and ids already used are strictly below the autoincrement counter. -/
def Store.wf (s : Store) : Prop :=
  ∀ m ∈ s.rows, ∃ i, m.id = some i ∧ i < s.nextId

/-- Python `x or y` on an optional datetime: every `datetime` object is
truthy and `None` is falsy, so this is `getD`. -/
def pyOrDatetime (x : Option Datetime) (y : Datetime) : Datetime :=
  match x with
  | some d => d
  | none => y

/-! ## Request payload parsing

FastAPI parses the JSON request body into a `MeasurementCreate` via
pydantic.  The default pydantic config ignores extra fields, so only the
keys `device_id`, `sensor`, `value`, `ts` are consulted.
-/

inductive JsonValue where
  | str (s : String)
  | num (f : Float)
  | dt (d : Datetime)
  | null
  | arr (xs : List String)

/-- A raw JSON object body: association list of fields (first match wins). -/
def RawPayload := List (String × JsonValue)

def RawPayload.get : RawPayload → String → Option JsonValue
  | [], _ => none
  | (k, v) :: rest, key => if k = key then some v else RawPayload.get rest key

def asStr : Option JsonValue → Option String
  | some (.str s) => some s
  | _ => none

def asNum : Option JsonValue → Option Float
  | some (.num f) => some f
  | _ => none

/-- The `ts : datetime | None = None` field: absent or JSON null yields the
default `None`; a datetime value is accepted; anything else fails. -/
def parseTs : Option JsonValue → Option (Option Datetime)
  | none => some none
  | some .null => some none
  | some (.dt d) => some (some d)
  | some _ => none

/-- Pydantic validation of the request body against `MeasurementCreate`:
reads exactly the declared fields, ignores everything else. -/
def parse_measurement_create (p : RawPayload) : Option MeasurementCreate :=
  match asStr (p.get ("device_id")), asStr (p.get ("sensor")),
        asNum (p.get ("value")), parseTs (p.get ("ts")) with
  | some d, some sn, some v, some t =>
      some { device_id := d, sensor := sn, value := v, ts := t }
  | _, _, _, _ => none

/-! ## Endpoints -/

/-- `POST /measurements/` (`create_measurement` in `src/app.py`): builds the
`Measurement` from the payload with `ts = payload.ts or datetime.now(UTC)`,
inserts it in a session, commits, and refreshes to pick up the
store-assigned `id`.  Returns the refreshed entity and the new store. -/
def create_measurement (payload : MeasurementCreate) (clock : Int)
    (s : Store) : Measurement × Store :=
  let measurement : Measurement :=
    { id := none
      device_id := payload.device_id
      sensor := payload.sensor
      value := payload.value
      ts := pyOrDatetime payload.ts (datetime_now_utc clock) }
  let persisted : Measurement := { measurement with id := some s.nextId }
  (persisted, { rows := s.rows ++ [persisted], nextId := s.nextId + 1 })

inductive ApiError where
  | validationError
deriving DecidableEq, Repr

/-- `GET /measurements/` (`read_measurements` in `src/app.py`):
`limit: int = Query(100, ge=1, le=1000)` — absent limit defaults to 100;
an out-of-range limit is rejected by FastAPI's query validation before the
handler body (and hence the store) is reached; otherwise the handler runs
`select(Measurement).limit(limit)` and returns the rows.  The result pairs
the response with the (unchanged) store. -/
def read_measurements (limit : Option Int) (s : Store) :
    Except ApiError (List Measurement) × Store :=
  match limit with
  | none => (.ok (s.rows.take 100), s)
  | some l =>
      if 1 ≤ l ∧ l ≤ 1000 then (.ok (s.rows.take l.toNat), s)
      else (.error .validationError, s)

/-! ## Configuration loader (`src/config.py`) -/

/-- The raw environment, before validation: each pydantic-settings field is
present or absent. -/
structure RawEnv where
  POSTGRES_SERVER : Option String
  POSTGRES_PORT : Option Int
  POSTGRES_USER : Option String
  POSTGRES_PASSWORD : Option String
  POSTGRES_PASSWORD_FILE : Option String
  POSTGRES_DB : Option String

/-- `Settings.check_postgres_password` (`model_validator(mode="before")`):
raises a `ValueError` when both `POSTGRES_PASSWORD_FILE` and
`POSTGRES_PASSWORD` are `None` in the raw data. -/
def check_postgres_password (pw pwf : Option String) : Except String Unit :=
  if pwf = none ∧ pw = none then
    .error ("At least one of POSTGRES_PASSWORD_FILE and POSTGRES_PASSWORD must be set.")
  else .ok ()

/-- Python `str.strip()` with no argument: removes leading **and** trailing
whitespace characters. -/
def pyStrip (s : String) : String :=
  String.mk (((s.data.dropWhile Char.isWhitespace).reverse.dropWhile
    Char.isWhitespace).reverse)

/-- `Settings.read_password_from_file` (`field_validator` on
`POSTGRES_PASSWORD_FILE`): when the field is set, the file must exist; its
content is read and `strip()`ped and replaces the field's value.  The
filesystem is embedded as a partial map from paths to file contents. -/
def read_password_from_file (fs : String → Option String)
    (v : Option String) : Except String (Option String) :=
  match v with
  | some file_path =>
      match fs file_path with
      | some content => .ok (some (pyStrip content))
      | none => .error ("Password file " ++ file_path ++ " does not exist.")
  | none => .ok none

/-- Validated settings.  After validation `POSTGRES_PASSWORD_FILE` holds the
stripped file *content* (the validator replaced the path). -/
structure Settings where
  POSTGRES_SERVER : String
  POSTGRES_PORT : Int
  POSTGRES_USER : String
  POSTGRES_PASSWORD : Option String
  POSTGRES_PASSWORD_FILE : Option String
  POSTGRES_DB : String

/-- Python truthiness of an optional string: `None` and `""` are falsy. -/
def pyTruthyStr : Option String → Bool
  | none => false
  | some s => s ≠ ""

/-- The connection URI, embedded structurally: the record of components
`MultiHostUrl.build` is called with (percent-encoding of components is the
URI library's concern and does not change which value is embedded). -/
structure Uri where
  scheme : String
  username : Option String
  password : Option String
  host : String
  port : Int
  path : String
deriving DecidableEq, Repr

/-- `Settings.SQLALCHEMy...` computed field: builds the connection URI with
`password = self.POSTGRES_PASSWORD if self.POSTGRES_PASSWORD else
self.POSTGRES_PASSWORD_FILE` — a *truthiness* test, so an empty-string
direct password falls through to the password-file value. -/
def SQLALCHEMY_DATABASE_URI (s : Settings) : Uri :=
  { scheme := "postgresql+psycopg"
    username := some s.POSTGRES_USER
    password :=
      if pyTruthyStr s.POSTGRES_PASSWORD then s.POSTGRES_PASSWORD
      else s.POSTGRES_PASSWORD_FILE
    host := s.POSTGRES_SERVER
    port := s.POSTGRES_PORT
    path := s.POSTGRES_DB }

/-- `settings = Settings()` at module import: pydantic-settings runs the
before-model validator, then the field validators / required-field checks,
producing validated `Settings` or failing (which aborts the process before
it serves).  `POSTGRES_PORT` defaults to 5432. -/
def load_settings (fs : String → Option String) (env : RawEnv) :
    Except String Settings :=
  match check_postgres_password env.POSTGRES_PASSWORD env.POSTGRES_PASSWORD_FILE with
  | .error e => .error e
  | .ok () =>
      match read_password_from_file fs env.POSTGRES_PASSWORD_FILE with
      | .error e => .error e
      | .ok pwfContent =>
          match env.POSTGRES_SERVER, env.POSTGRES_USER, env.POSTGRES_DB with
          | some server, some user, some db =>
              .ok { POSTGRES_SERVER := server
                    POSTGRES_PORT := env.POSTGRES_PORT.getD 5432
                    POSTGRES_USER := user
                    POSTGRES_PASSWORD := env.POSTGRES_PASSWORD
                    POSTGRES_PASSWORD_FILE := pwfContent
                    POSTGRES_DB := db }
          | _, _, _ => .error ("missing required field")

/-- The transformation the specification describes for the password file:
trim only *trailing* whitespace/newline, the rest of the content unchanged. -/
def spec_trim_trailing (s : String) : String :=
  String.mk ((s.data.reverse.dropWhile Char.isWhitespace).reverse)

/-! ## Concrete example values used by witnesses and counterexamples -/

def payloadNoTs : MeasurementCreate :=
  { device_id := ("esp32-1"), sensor := ("temp"), value := 21.5, ts := none }

def ts2024 : Datetime := { time := 1704067200000000, offset := some 0 }

def payloadWithTs : MeasurementCreate :=
  { device_id := ("esp32-1"), sensor := ("temp"), value := 21.5, ts := some ts2024 }

def tsPlus5h : Datetime := { time := 1704067200000000, offset := some 300 }

def payloadPlus5h : MeasurementCreate :=
  { device_id := ("esp32-1"), sensor := ("temp"), value := 21.5, ts := some tsPlus5h }

def emptyStore : Store := { rows := [], nextId := 1 }

def rowEx : Measurement :=
  { id := some 0, device_id := ("d"), sensor := ("s"), value := 1.0,
    ts := { time := 0, offset := some 0 } }

def store150 : Store := { rows := List.replicate 150 rowEx, nextId := 151 }

/-! ## Theorems -/

/-- C1: for every valid create payload, `create_measurement` constructs the
full entity (filling `ts` with the current time when the payload omits it),
inserts it into the store, and returns the complete entity whose `id` is
non-null, store-assigned (the autoincrement counter, unused by any persisted
row) and whose timestamp is non-null (always present). -/
theorem create_measurement_complete (p : MeasurementCreate) (clock : Int)
    (s : Store) (hwf : s.wf) :
    (create_measurement p clock s).1.id = some s.nextId ∧
    (∀ m ∈ s.rows, m.id ≠ (create_measurement p clock s).1.id) ∧
    (create_measurement p clock s).1.device_id = p.device_id ∧
    (create_measurement p clock s).1.sensor = p.sensor ∧
    (create_measurement p clock s).1.value = p.value ∧
    (create_measurement p clock s).1.ts = pyOrDatetime p.ts (datetime_now_utc clock) ∧
    (create_measurement p clock s).2.rows = s.rows ++ [(create_measurement p clock s).1] := by
  refine ⟨rfl, ?_, rfl, rfl, rfl, rfl, rfl⟩
  intro m hm
  obtain ⟨i, hi, hlt⟩ := hwf m hm
  simp [create_measurement, hi]
  omega

/-- C1 witness: instantiation at a concrete payload and the empty store. -/
theorem create_measurement_complete_witness :
    emptyStore.wf ∧
    ((create_measurement payloadNoTs 0 emptyStore).1.id = some emptyStore.nextId ∧
    (∀ m ∈ emptyStore.rows, m.id ≠ (create_measurement payloadNoTs 0 emptyStore).1.id) ∧
    (create_measurement payloadNoTs 0 emptyStore).1.device_id = payloadNoTs.device_id ∧
    (create_measurement payloadNoTs 0 emptyStore).1.sensor = payloadNoTs.sensor ∧
    (create_measurement payloadNoTs 0 emptyStore).1.value = payloadNoTs.value ∧
    (create_measurement payloadNoTs 0 emptyStore).1.ts
      = pyOrDatetime payloadNoTs.ts (datetime_now_utc 0) ∧
    (create_measurement payloadNoTs 0 emptyStore).2.rows
      = emptyStore.rows ++ [(create_measurement payloadNoTs 0 emptyStore).1]) :=
  ⟨by intro m hm; simp [emptyStore] at hm,
   create_measurement_complete payloadNoTs 0 emptyStore
     (by intro m hm; simp [emptyStore] at hm)⟩

/-- C2: for every create payload that supplies a timestamp, the timestamp of
the returned (and persisted) entity exactly equals the supplied value. -/
theorem create_measurement_ts_roundtrip (p : MeasurementCreate) (t : Datetime)
    (clock : Int) (s : Store) (h : p.ts = some t) :
    (create_measurement p clock s).1.ts = t ∧
    (create_measurement p clock s).2.rows
      = s.rows ++ [(create_measurement p clock s).1] := by
  constructor
  · simp only [create_measurement, h, pyOrDatetime]
  · rfl

/-- C2 witness: round-trip of a concrete supplied timestamp. -/
theorem create_measurement_ts_roundtrip_witness :
    payloadWithTs.ts = some ts2024 ∧
    ((create_measurement payloadWithTs 0 emptyStore).1.ts = ts2024 ∧
    (create_measurement payloadWithTs 0 emptyStore).2.rows
      = emptyStore.rows ++ [(create_measurement payloadWithTs 0 emptyStore).1]) :=
  ⟨rfl, create_measurement_ts_roundtrip payloadWithTs ts2024 0 emptyStore rfl⟩

/-- C3 counterexample: a client-supplied timestamp with a +05:00 offset is
persisted and returned with that offset unchanged — not expressed in UTC —
refuting the claim that every persisted timestamp is in UTC. -/
theorem create_measurement_ts_not_always_utc :
    (create_measurement payloadPlus5h 0 emptyStore).1.ts.offset = some 300 ∧
    (create_measurement payloadPlus5h 0 emptyStore).1.ts.offset ≠ some 0 ∧
    (create_measurement payloadPlus5h 0 emptyStore).1
      ∈ (create_measurement payloadPlus5h 0 emptyStore).2.rows := by
  refine ⟨rfl, by decide, ?_⟩
  simp [create_measurement]

/-- C3 amended: a server-defaulted timestamp (payload omits `ts`) is
expressed in UTC; a client-supplied timestamp is stored and returned exactly
as supplied, with no conversion to UTC. -/
theorem create_measurement_ts_timezone (p : MeasurementCreate) (clock : Int)
    (s : Store) :
    (p.ts = none → (create_measurement p clock s).1.ts.offset = some 0) ∧
    (∀ t, p.ts = some t → (create_measurement p clock s).1.ts = t) := by
  constructor
  · intro h
    simp only [create_measurement, h, pyOrDatetime, datetime_now_utc]
  · intro t h
    simp only [create_measurement, h, pyOrDatetime]

/-- C3 amended witness: both branches at concrete payloads. -/
theorem create_measurement_ts_timezone_witness :
    (payloadNoTs.ts = none ∧
      (create_measurement payloadNoTs 0 emptyStore).1.ts.offset = some 0) ∧
    (payloadPlus5h.ts = some tsPlus5h ∧
      (create_measurement payloadPlus5h 0 emptyStore).1.ts = tsPlus5h) :=
  ⟨⟨rfl, (create_measurement_ts_timezone payloadNoTs 0 emptyStore).1 rfl⟩,
   ⟨rfl, (create_measurement_ts_timezone payloadPlus5h 0 emptyStore).2 tsPlus5h rfl⟩⟩

/-- C4: a list call with limit `L`, `1 ≤ L ≤ 1000`, returns a sequence of
length `min L (number of persisted records)`; without a limit the default is
100; with 150 records persisted, no limit yields exactly 100 records and
`limit = 150` yields exactly 150. -/
theorem read_measurements_length (l : Int) (s : Store)
    (h1 : 1 ≤ l) (h2 : l ≤ 1000) :
    ((read_measurements (some l) s).1 = .ok (s.rows.take l.toNat) ∧
      (s.rows.take l.toNat).length = min l.toNat s.rows.length) ∧
    ((read_measurements none s).1 = .ok (s.rows.take 100) ∧
      (s.rows.take 100).length = min 100 s.rows.length) ∧
    (s.rows.length = 150 →
      ((∃ ms, (read_measurements none s).1 = .ok ms ∧ ms.length = 100) ∧
       (∃ ms, (read_measurements (some 150) s).1 = .ok ms ∧ ms.length = 150))) := by
  refine ⟨⟨?_, ?_⟩, ⟨rfl, ?_⟩, ?_⟩
  · simp only [read_measurements, if_pos (And.intro h1 h2)]
  · exact List.length_take l.toNat s.rows
  · exact List.length_take 100 s.rows
  · intro h150
    constructor
    · exact ⟨s.rows.take 100, rfl, by rw [List.length_take, h150]; decide⟩
    · refine ⟨s.rows.take (150 : Int).toNat, ?_, ?_⟩
      · simp only [read_measurements, if_pos (by omega : (1:Int) ≤ 150 ∧ (150:Int) ≤ 1000)]
      · rw [List.length_take, h150]; decide

/-- C4 witness: instantiation at a store holding exactly 150 records. -/
theorem read_measurements_length_witness :
    ((1 : Int) ≤ 150 ∧ (150 : Int) ≤ 1000 ∧ store150.rows.length = 150) ∧
    (((read_measurements (some 150) store150).1
        = .ok (store150.rows.take (150 : Int).toNat) ∧
      (store150.rows.take (150 : Int).toNat).length
        = min (150 : Int).toNat store150.rows.length) ∧
     ((read_measurements none store150).1 = .ok (store150.rows.take 100) ∧
      (store150.rows.take 100).length = min 100 store150.rows.length) ∧
     (store150.rows.length = 150 →
       ((∃ ms, (read_measurements none store150).1 = .ok ms ∧ ms.length = 100) ∧
        (∃ ms, (read_measurements (some 150) store150).1 = .ok ms ∧ ms.length = 150)))) :=
  ⟨⟨by omega, by omega, by simp [store150]⟩,
   read_measurements_length 150 store150 (by omega) (by omega)⟩

/-- C5: a list call with a limit outside `[1, 1000]` fails with a validation
error, leaves the persisted state unchanged, and the response is computed
without consulting the store (it is the same for every store). -/
theorem read_measurements_invalid_limit (l : Int) (s : Store)
    (h : l < 1 ∨ 1000 < l) :
    read_measurements (some l) s = (.error .validationError, s) ∧
    (∀ s' : Store, (read_measurements (some l) s').1 = .error .validationError) := by
  have hcond : ∀ s' : Store,
      read_measurements (some l) s' = (.error .validationError, s') := by
    intro s'
    simp only [read_measurements, if_neg (by omega : ¬((1:Int) ≤ l ∧ l ≤ 1000))]
  exact ⟨hcond s, fun s' => by rw [hcond s']⟩

/-- C5 witness: instantiation at `limit = 0` and `limit = 1001`. -/
theorem read_measurements_invalid_limit_witness :
    ((0 : Int) < 1 ∨ (1000 : Int) < 0) ∧
    (read_measurements (some 0) store150 = (.error .validationError, store150) ∧
      ∀ s' : Store, (read_measurements (some 0) s').1 = .error .validationError) ∧
    ((1001 : Int) < 1 ∨ (1000 : Int) < 1001) ∧
    (read_measurements (some 1001) store150 = (.error .validationError, store150) ∧
      ∀ s' : Store, (read_measurements (some 1001) s').1 = .error .validationError) :=
  ⟨Or.inl (by omega),
   read_measurements_invalid_limit 0 store150 (Or.inl (by omega)),
   Or.inr (by omega),
   read_measurements_invalid_limit 1001 store150 (Or.inr (by omega))⟩

def envNoCreds : RawEnv :=
  { POSTGRES_SERVER := some ("db"), POSTGRES_PORT := none,
    POSTGRES_USER := some ("app"), POSTGRES_PASSWORD := none,
    POSTGRES_PASSWORD_FILE := none, POSTGRES_DB := some ("iot") }

def envDirectPw : RawEnv :=
  { envNoCreds with POSTGRES_PASSWORD := some ("hunter2") }

def emptyFs : String → Option String := fun _ => none

/-- A filesystem holding one secret file whose content has a *leading* space
and a trailing newline. -/
def fsLeadingSpace : String → Option String :=
  fun p => if p = "/run/secrets/db-password" then some (" secret\n") else none

def cfgEmptyDirectPw : Settings :=
  { POSTGRES_SERVER := ("db"), POSTGRES_PORT := 5432, POSTGRES_USER := ("app"),
    POSTGRES_PASSWORD := some (""), POSTGRES_PASSWORD_FILE := some ("filesecret"),
    POSTGRES_DB := ("iot") }

def cfgBothPw : Settings :=
  { POSTGRES_SERVER := ("db"), POSTGRES_PORT := 5432, POSTGRES_USER := ("app"),
    POSTGRES_PASSWORD := some ("direct"), POSTGRES_PASSWORD_FILE := some ("filesecret"),
    POSTGRES_DB := ("iot") }

/-- C6: when neither a direct password nor a password-file path is supplied,
configuration loading fails with a configuration error (so the process never
starts serving); supplying at least one credential source passes the
credential check. -/
theorem check_postgres_password_gate (env : RawEnv) (fs : String → Option String) :
    (env.POSTGRES_PASSWORD = none ∧ env.POSTGRES_PASSWORD_FILE = none →
      ∃ e, load_settings fs env = .error e) ∧
    (env.POSTGRES_PASSWORD ≠ none ∨ env.POSTGRES_PASSWORD_FILE ≠ none →
      check_postgres_password env.POSTGRES_PASSWORD env.POSTGRES_PASSWORD_FILE
        = .ok ()) := by
  constructor
  · rintro ⟨hpw, hpwf⟩
    refine ⟨("At least one of POSTGRES_PASSWORD_FILE and POSTGRES_PASSWORD must be set."), ?_⟩
    simp only [load_settings, check_postgres_password, hpw, hpwf]
    simp
  · intro h
    simp only [check_postgres_password]
    rw [if_neg]
    tauto

/-- C6 witness: a credential-free environment fails to load; an environment
with a direct password passes the check. -/
theorem check_postgres_password_gate_witness :
    ((envNoCreds.POSTGRES_PASSWORD = none ∧ envNoCreds.POSTGRES_PASSWORD_FILE = none) ∧
      ∃ e, load_settings emptyFs envNoCreds = .error e) ∧
    ((envDirectPw.POSTGRES_PASSWORD ≠ none ∨ envDirectPw.POSTGRES_PASSWORD_FILE ≠ none) ∧
      check_postgres_password envDirectPw.POSTGRES_PASSWORD
        envDirectPw.POSTGRES_PASSWORD_FILE = .ok ()) :=
  ⟨⟨⟨rfl, rfl⟩, (check_postgres_password_gate envNoCreds emptyFs).1 ⟨rfl, rfl⟩⟩,
   ⟨Or.inl (by simp [envDirectPw, envNoCreds]),
    (check_postgres_password_gate envDirectPw emptyFs).2
      (Or.inl (by simp [envDirectPw, envNoCreds]))⟩⟩

/-- C7 counterexample: a password file whose content has a *leading* space
(and a trailing newline) yields the effective password with the leading
space stripped as well, whereas trimming only trailing whitespace — what the
claim states, leaving the rest of the content unchanged — would keep it. -/
theorem read_password_from_file_strips_leading :
    fsLeadingSpace ("/run/secrets/db-password") = some (" secret\n") ∧
    read_password_from_file fsLeadingSpace (some ("/run/secrets/db-password"))
      = .ok (some ("secret")) ∧
    spec_trim_trailing (" secret\n") = (" secret") ∧
    (some ("secret") : Option String) ≠ some (" secret") := by
  have hstrip : pyStrip (" secret\n") = ("secret") := by decide
  refine ⟨rfl, ?_, by decide, by decide⟩
  simp [read_password_from_file, fsLeadingSpace, hstrip]

/-- C7 amended: if the password file exists, the effective password is the
file content trimmed of *leading and trailing* whitespace/newlines; if the
path does not exist, configuration loading fails fast with an error. -/
theorem read_password_from_file_spec (fs : String → Option String)
    (path : String) :
    (∀ content, fs path = some content →
      read_password_from_file fs (some path) = .ok (some (pyStrip content))) ∧
    (fs path = none →
      ∃ e, read_password_from_file fs (some path) = .error e) := by
  constructor
  · intro content h
    simp only [read_password_from_file, h]
  · intro h
    refine ⟨("Password file " ++ path ++ " does not exist."), ?_⟩
    simp only [read_password_from_file, h]

/-- C7 amended witness: both branches, on the concrete one-file system. -/
theorem read_password_from_file_spec_witness :
    (fsLeadingSpace ("/run/secrets/db-password") = some (" secret\n") ∧
      read_password_from_file fsLeadingSpace (some ("/run/secrets/db-password"))
        = .ok (some (pyStrip (" secret\n")))) ∧
    (fsLeadingSpace ("/missing") = none ∧
      ∃ e, read_password_from_file fsLeadingSpace (some ("/missing")) = .error e) :=
  ⟨⟨rfl, (read_password_from_file_spec fsLeadingSpace ("/run/secrets/db-password")).1
      (" secret\n") rfl⟩,
   ⟨rfl, (read_password_from_file_spec fsLeadingSpace ("/missing")).2 rfl⟩⟩

/-- C8 counterexample: with both credential sources supplied but the direct
password equal to the empty string, the URI embeds the password-file value,
not the direct password — refuting unconditional precedence of the direct
password. -/
theorem uri_password_empty_direct_loses :
    cfgEmptyDirectPw.POSTGRES_PASSWORD = some ("") ∧
    cfgEmptyDirectPw.POSTGRES_PASSWORD_FILE = some ("filesecret") ∧
    (SQLALCHEMY_DATABASE_URI cfgEmptyDirectPw).password = some ("filesecret") ∧
    (SQLALCHEMY_DATABASE_URI cfgEmptyDirectPw).password
      ≠ cfgEmptyDirectPw.POSTGRES_PASSWORD := by
  refine ⟨rfl, rfl, ?_, ?_⟩ <;>
    simp [SQLALCHEMY_DATABASE_URI, cfgEmptyDirectPw, pyTruthyStr]

/-- C8 amended: when both a *non-empty* direct password and a password-file
value are supplied, the direct password takes precedence in the produced
connection URI. -/
theorem uri_password_direct_precedence (s : Settings) (pw : String)
    (hpw : s.POSTGRES_PASSWORD = some pw) (hne : pw ≠ ("")) :
    (SQLALCHEMY_DATABASE_URI s).password = some pw := by
  simp [SQLALCHEMY_DATABASE_URI, pyTruthyStr, hpw, hne]

/-- C8 amended witness: a non-empty direct password wins over the file. -/
theorem uri_password_direct_precedence_witness :
    cfgBothPw.POSTGRES_PASSWORD = some ("direct") ∧
    ("direct" : String) ≠ ("") ∧
    (SQLALCHEMY_DATABASE_URI cfgBothPw).password = some ("direct") :=
  ⟨rfl, by decide, uri_password_direct_precedence cfgBothPw ("direct") rfl (by decide)⟩

/-- C9: the startup credential check errors exactly when both credential
fields are `None` — an empty-string direct password counts as present, so
startup succeeds — and yet the empty string is treated as absent when the
URI is assembled: the URI password is then the password-file value (or no
password at all when no file was supplied). -/
theorem empty_password_check_vs_uri (pw pwf : Option String) (st : Settings) :
    ((∃ e, check_postgres_password pw pwf = .error e) ↔ (pw = none ∧ pwf = none)) ∧
    (st.POSTGRES_PASSWORD = some ("") →
      (SQLALCHEMY_DATABASE_URI st).password = st.POSTGRES_PASSWORD_FILE) := by
  constructor
  · constructor
    · intro ⟨e, he⟩
      by_contra hc
      rw [check_postgres_password, if_neg (by tauto)] at he
      exact Except.noConfusion he
    · rintro ⟨hpw, hpwf⟩
      refine ⟨("At least one of POSTGRES_PASSWORD_FILE and POSTGRES_PASSWORD must be set."), ?_⟩
      simp [check_postgres_password, hpw, hpwf]
  · intro h
    simp [SQLALCHEMY_DATABASE_URI, pyTruthyStr, h]

/-- C9 witness: the check passes at an empty-string password while the URI
falls back to the file value. -/
theorem empty_password_check_vs_uri_witness :
    ((∃ e, check_postgres_password (some ("")) (some ("filesecret")) = .error e) ↔
      ((some ("") : Option String) = none ∧ (some ("filesecret") : Option String) = none)) ∧
    (cfgEmptyDirectPw.POSTGRES_PASSWORD = some ("") ∧
      (SQLALCHEMY_DATABASE_URI cfgEmptyDirectPw).password
        = cfgEmptyDirectPw.POSTGRES_PASSWORD_FILE) :=
  ⟨(empty_password_check_vs_uri (some ("")) (some ("filesecret")) cfgEmptyDirectPw).1,
   ⟨rfl, (empty_password_check_vs_uri (some ("")) (some ("filesecret")) cfgEmptyDirectPw).2 rfl⟩⟩

def rawPayloadWithId : RawPayload :=
  [(("device_id"), .str ("esp32-1")), (("sensor"), .str ("temp")),
   (("value"), .num 21.5), (("id"), .num 999)]

def rawPayloadNoId : RawPayload :=
  [(("device_id"), .str ("esp32-1")), (("sensor"), .str ("temp")),
   (("value"), .num 21.5)]

/-- C10: the create input schema contains only `device_id`, `sensor`,
`value` and optional `ts`, so request-body validation depends only on those
fields — two payloads agreeing on them (in particular, differing only in an
extra `id` field) validate to the same `MeasurementCreate` — and the `id` of
the entity returned by create is always store-assigned, never
client-supplied. -/
theorem create_input_schema_ignores_id (p1 p2 : RawPayload)
    (hdev : p1.get ("device_id") = p2.get ("device_id"))
    (hsen : p1.get ("sensor") = p2.get ("sensor"))
    (hval : p1.get ("value") = p2.get ("value"))
    (hts : p1.get ("ts") = p2.get ("ts")) :
    parse_measurement_create p1 = parse_measurement_create p2 ∧
    (∀ (pc : MeasurementCreate) (clock : Int) (s : Store),
      (create_measurement pc clock s).1.id = some s.nextId) := by
  constructor
  · simp only [parse_measurement_create, hdev, hsen, hval, hts]
  · intro pc clock s
    rfl

/-- C10 witness: a payload carrying an extra `id` field validates exactly
like the same payload without it. -/
theorem create_input_schema_ignores_id_witness :
    (rawPayloadWithId.get ("device_id") = rawPayloadNoId.get ("device_id") ∧
     rawPayloadWithId.get ("sensor") = rawPayloadNoId.get ("sensor") ∧
     rawPayloadWithId.get ("value") = rawPayloadNoId.get ("value") ∧
     rawPayloadWithId.get ("ts") = rawPayloadNoId.get ("ts")) ∧
    (parse_measurement_create rawPayloadWithId
        = parse_measurement_create rawPayloadNoId ∧
     ∀ (pc : MeasurementCreate) (clock : Int) (s : Store),
       (create_measurement pc clock s).1.id = some s.nextId) :=
  ⟨⟨rfl, rfl, rfl, rfl⟩,
   create_input_schema_ignores_id rawPayloadWithId rawPayloadNoId rfl rfl rfl rfl⟩

end IotBackend
